import Mathlib

/-!
Verification of the geocat-examples gallery scripts.

The repository is a set of six standalone plotting scripts.  The only
algorithmic code is:

* `findLocalMinima` in `Plots/Satellites/NCL_sat_1.py` — a local-minimum
  search over a 2D sea-level-pressure field, embedded here over `ℚ`
  (the Python code computes with float64; all the properties at issue are
  structural, not rounding-sensitive);
* `month_to_season` in `Plots/Contours/NCL_eof_1_1.py` — whose algorithmic
  part is the season-key lookup and its error path;
* the contour-label loop at the bottom of `NCL_sat_1.py`, which wraps each
  `ax.clabel` call in `try/except: continue`.

The top-level structure of each script (which of the stages
load / transform / plot / save-show it contains, in which order) is
embedded as per-script stage lists.
-/

set_option autoImplicit false

namespace Geocat

/-! ### Python-style list indexing

`U.data[x][y]` with a possibly negative `y` (Python wraps `-1` to the last
element).  In `findLocalMinima` the index `yval = x[1] - 1` can be `-1`. -/

/-- Python index semantics: a negative index counts from the end. -/
def pyIdx (len : Nat) (i : Int) : Nat :=
  if i < 0 then ((len : Int) + i).toNat else i.toNat

/-- Python-style element access with a default for out-of-range. -/
def pyGetD {α : Type} (xs : List α) (i : Int) (d : α) : α :=
  xs.getD (pyIdx xs.length i) d

/-- Row-major access `a[i][j]` for nonnegative indices. -/
def at2 (a : List (List ℚ)) (i j : Nat) : ℚ :=
  (a.getD i []).getD j 0

/-! ### Exact rational arithmetic

The Python code computes with float64.  The embedding computes with exact
rationals.  The arithmetic operations are spelled with the kernel-friendly
smart constructor `mkRat` (the bridge lemmas `qsub_eq`, `qadd_eq`,
`qhalf_eq`, `qneg_eq` and `qabs_eq` below identify them with the standard
field operations of `ℚ`). -/

/-- Exact rational subtraction `a - b`. -/
def qsub (a b : ℚ) : ℚ :=
  mkRat (a.num * b.den - b.num * a.den) (a.den * b.den)

/-- Exact rational addition `a + b`. -/
def qadd (a b : ℚ) : ℚ :=
  mkRat (a.num * b.den + b.num * a.den) (a.den * b.den)

/-- Exact rational halving `a / 2` (the only division `np.gradient`
performs). -/
def qhalf (a : ℚ) : ℚ :=
  mkRat a.num (a.den * 2)

/-- Exact rational negation `-1 * a`. -/
def qneg (a : ℚ) : ℚ :=
  mkRat (-a.num) a.den

/-- Exact rational absolute value. -/
def qabs (a : ℚ) : ℚ :=
  if a.num < 0 then qneg a else a

/-! ### `numpy` primitives used by `findLocalMinima` -/

/-- One-dimensional `np.gradient` with the default edge order: one-sided
differences at the two ends, central differences in the interior. -/
def grad1D (xs : List ℚ) : List ℚ :=
  (List.range xs.length).map fun j =>
    if j = 0 then qsub (xs.getD 1 0) (xs.getD 0 0)
    else if j = xs.length - 1 then
      qsub (xs.getD (xs.length - 1) 0) (xs.getD (xs.length - 2) 0)
    else qhalf (qsub (xs.getD (j + 1) 0) (xs.getD (j - 1) 0))

/-- Entry at `(i, j)` of `np.gradient(a)[0]` for a 2D array. -/
def grad0At (a : List (List ℚ)) (i j : Nat) : ℚ :=
  if i = 0 then qsub (at2 a 1 j) (at2 a 0 j)
  else if i = a.length - 1 then
    qsub (at2 a (a.length - 1) j) (at2 a (a.length - 2) j)
  else qhalf (qsub (at2 a (i + 1) j) (at2 a (i - 1) j))

/-- Axis-0 part of `np.gradient(a)` for a 2D array (same shape as `a`). -/
def grad0 (a : List (List ℚ)) : List (List ℚ) :=
  (List.range a.length).map fun i =>
    (List.range (a.getD i []).length).map fun j => grad0At a i j

/-- Axis-1 part of `np.gradient(a)` for a 2D array: `grad1D` applied to each row. -/
def grad1 (a : List (List ℚ)) : List (List ℚ) :=
  a.map grad1D

/-- Elementwise `np.absolute` on a 2D array. -/
def absGrid (a : List (List ℚ)) : List (List ℚ) :=
  a.map fun row => row.map qabs

/-- Embedding of `np.argwhere(a <= bound)`: the index pairs of the entries
at most `bound`, in row-major (C) order. -/
def argwhereLe (a : List (List ℚ)) (bound : ℚ) : List (Nat × Nat) :=
  (List.range a.length).flatMap fun i =>
    (List.range (a.getD i []).length).filterMap fun j =>
      if (a.getD i []).getD j 0 ≤ bound then some (i, j) else none

/-- Numpy membership `x in arr` for a row `x` and a 2D integer array `arr`:
it evaluates `(arr == x).any()`, i.e. the broadcast comparison holds
somewhere — some row of `arr` agrees with `x` in its first OR its second
component.  This is what the Python line `if x in firstzeroes` computes:
it is NOT row membership. -/
def npRowMem (x : Nat × Nat) (l : List (Nat × Nat)) : Bool :=
  l.any fun r => r.1 == x.1 || r.2 == x.2

/-! ### Data preparation in the satellite script -/

/-- Embedding of `gvutil.xr_add_cyclic_longitudes(U, "lon")` on one row of
the data: append a copy of the first column after the last (this is what
the underlying cartopy `add_cyclic_point` does). -/
def wrapRow (row : List ℚ) : List ℚ :=
  row ++ [row.headD 0]

/-- The cyclic-wrapped pressure field `wrap_U.data`. -/
def wrapU (u : List (List ℚ)) : List (List ℚ) :=
  u.map wrapRow

/-- The wrapped longitude coordinate: the original longitudes followed by
the cyclic point `lon[0] + 360`. -/
def wrapLon (lon : List ℚ) : List ℚ :=
  lon ++ [qadd (lon.headD 0) 360]

/-- Embedding of `makeCoordArr()`: the 2D array of `(lat, lon)` pairs with
the same shape as the (unwrapped) pressure data. -/
def makeCoordArr (lat lon : List ℚ) : List (List (ℚ × ℚ)) :=
  lat.map fun x => lon.map fun y => (x, y)

/-! ### `findLocalMinima` -/

/-- The body of `findLocalMinima(minPressure)` from `NCL_sat_1.py`,
with the globals it reads (`U.lat`, `U.lon`, `U.data`, `wrap_U.data`)
made explicit parameters:

* `coordarr := makeCoordArr()`;
* `bound := 0.1`;
* `grad := np.absolute(np.gradient(wrap_U.data))`; `arr1, arr2 := grad[0], grad[1]`;
* `firstzeroes := np.argwhere(arr1 <= bound)`; `secondzeroes := np.argwhere(arr2 <= bound)`;
* `commonzeroes := [x for x in secondzeroes if x in firstzeroes]`
  (`x in firstzeroes` is numpy broadcast membership, `npRowMem`);
* for each such `x`: `xval, yval := x[0], x[1] - 1`; if
  `U.data[xval][yval] < minPressure` then append
  `(-1 * coordarr[xval][yval][0], coordarr[xval][yval][1] - 180)`.

`yval` can be `-1`, which Python indexing wraps to the last column. -/
def findLocalMinimaCore (lat lon : List ℚ) (u w : List (List ℚ))
    (minPressure : ℚ) : List (ℚ × ℚ) :=
  let coordarr := makeCoordArr lat lon
  let bound : ℚ := mkRat 1 10
  let arr1 := absGrid (grad0 w)
  let arr2 := absGrid (grad1 w)
  let firstzeroes := argwhereLe arr1 bound
  let secondzeroes := argwhereLe arr2 bound
  let commonzeroes := secondzeroes.filter fun x => npRowMem x firstzeroes
  commonzeroes.filterMap fun x =>
    let xval : Int := (x.1 : Int)
    let yval : Int := (x.2 : Int) - 1
    if pyGetD (pyGetD u xval []) yval 0 < minPressure then
      let coordonmap := pyGetD (pyGetD coordarr xval []) yval (0, 0)
      some (qneg coordonmap.1, qsub coordonmap.2 180)
    else none

/-- The function `findLocalMinima` as the script runs it: the wrapped field is
`wrapU u`, exactly as `wrap_U` is built from `U` at the top of the
script. -/
def findLocalMinima (lat lon : List ℚ) (u : List (List ℚ))
    (minPressure : ℚ) : List (ℚ × ℚ) :=
  findLocalMinimaCore lat lon u (wrapU u) minPressure

/-- The local-minimum search as the sentence of the spec describes it
(refinement reference, written from the words of the spec, not from the
code): compute the discrete gradient magnitude along each axis of the
wrapped field, flag the grid points where BOTH components are at or below
the tolerance `0.1`, keep the flagged points whose pressure value AT THE
SAME GRID POINT is below `minPressure`, and map the `(lat, lon)` of that
point to `(-lat, lon - 180)`. -/
def findLocalMinimaSpec (lat lon : List ℚ) (u : List (List ℚ))
    (minPressure : ℚ) : List (ℚ × ℚ) :=
  let w := wrapU u
  let bound : ℚ := mkRat 1 10
  let arr1 := absGrid (grad0 w)
  let arr2 := absGrid (grad1 w)
  let flagged := (argwhereLe arr2 bound).filter fun x => x ∈ argwhereLe arr1 bound
  flagged.filterMap fun x =>
    if at2 w x.1 x.2 < minPressure then
      some (qneg (lat.getD x.1 0), qsub ((wrapLon lon).getD x.2 0) 180)
    else none

/-! ### The state of the satellite script, for the frame/purity claim

`findLocalMinima` reads the module globals `U` (data and `lat`/`lon`
coordinates) and `wrap_U`; it writes none of them (it only appends to the
local lists `commonzeroes` and `minimacoords`). -/

/-- The globals of `NCL_sat_1.py` that `findLocalMinima` can see. -/
structure SatState where
  lat : List ℚ
  lon : List ℚ
  U : List (List ℚ)
  wrap_U : List (List ℚ)
deriving DecidableEq

/-- The function `findLocalMinima` as a state transformer over the globals
of the script: it returns the (unchanged) globals together with its
result. -/
def findLocalMinimaSt (s : SatState) (minPressure : ℚ) :
    SatState × List (ℚ × ℚ) :=
  (s, findLocalMinimaCore s.lat s.lon s.U s.wrap_U minPressure)

/-! ### The contour-label loop of `NCL_sat_1.py`

```python
for x in lowClevels:
    try:
        ax.clabel(p, manual=[x], ...)
    except:
        continue
```

The fallible call is abstracted as `f : α → Except ε β`; the observable
effect of the loop is the sequence of successful labellings. -/

/-- The `try/except: continue` loop: each point is attempted in order; a
point whose call raises is skipped and the loop continues with the next
point.  No exception escapes. -/
def clabelLoop {α ε β : Type} (f : α → Except ε β) : List α → List β
  | [] => []
  | x :: rest =>
    match f x with
    | Except.ok b => b :: clabelLoop f rest
    | Except.error _ => clabelLoop f rest

/-- The same loop as the spec describes failure handling (letting the own
exceptions of the library propagate): the first exception aborts the loop
and reaches the caller. -/
def clabelLoopPropagating {α ε β : Type} (f : α → Except ε β) :
    List α → Except ε (List β)
  | [] => Except.ok []
  | x :: rest =>
    match f x with
    | Except.ok b =>
      match clabelLoopPropagating f rest with
      | Except.ok bs => Except.ok (b :: bs)
      | Except.error e => Except.error e
    | Except.error e => Except.error e

/-- A concrete fallible labelling call used in the counterexample: it
raises on the point `0` and succeeds on every other point. -/
def clabelFails0 (n : Nat) : Except String Nat :=
  if n = 0 then Except.error "ValueError" else Except.ok n

/-! ### `month_to_season` from `NCL_eof_1_1.py` -/

/-- The `seasons_pd` dictionary: season key ↦ (pandas offset, month to
select). -/
def seasons_pd : List (String × (String × Nat)) :=
  [("DJF", ("QS-DEC", 1)), ("JFM", ("QS-JAN", 2)), ("FMA", ("QS-FEB", 3)),
   ("MAM", ("QS-MAR", 4)), ("AMJ", ("QS-APR", 5)), ("MJJ", ("QS-MAY", 6)),
   ("JJA", ("QS-JUN", 7)), ("JAS", ("QS-JUL", 8)), ("ASO", ("QS-AUG", 9)),
   ("SON", ("QS-SEP", 10)), ("OND", ("QS-OCT", 11)), ("NDJ", ("QS-NOV", 12))]

/-- The 12 recognized three-month season keys, in dictionary order. -/
def seasonKeys : List String :=
  seasons_pd.map Prod.fst

/-- The key-lookup step of `month_to_season`: `seasons_pd[season]`, with
the `KeyError` caught and re-raised as
`ValueError("contributed: month_to_season: bad season: SEASON = " + season)`. -/
def monthToSeasonLookup (season : String) : Except String (String × Nat) :=
  match seasons_pd.lookup season with
  | some p => Except.ok p
  | none =>
    Except.error ("contributed: month_to_season: bad season: SEASON = "
      ++ season)

/-! ### Top-level structure of the six scripts

Each module body is abstracted to which of the four stages named by the
spec it performs, in source order. -/

/-- The four stages the spec names. -/
inductive Stage : Type
  | load : Stage
  | transform : Stage
  | plot : Stage
  | saveShow : Stage
deriving DecidableEq

/-- The canonical stage order of the spec: load → subset/transform →
plot → save/show. -/
def canonicalStages : List Stage :=
  [Stage.load, Stage.transform, Stage.plot, Stage.saveShow]

/-- Stages of `NCL_maponly_1.py`: no dataset is opened; the script only
draws map features and calls `plt.show()`. -/
def NCL_maponly_1_stages : List Stage :=
  [Stage.plot, Stage.saveShow]

/-- Stages of `NCL_native_2.py`: `xr.open_dataset`, `isel(time=0)`,
contour plots, `plt.show()`. -/
def NCL_native_2_stages : List Stage :=
  canonicalStages

/-- Stages of `NCL_sat_1.py`: `xr.open_dataset`, unit conversion / cyclic
wrap / `findLocalMinima`, contour plot, `plt.show()`. -/
def NCL_sat_1_stages : List Stage :=
  canonicalStages

/-- Stages of `NCL_panel_13.py`: `xr.open_dataset`, `isel` and wind
magnitude, paneled plots, `plt.show()`. -/
def NCL_panel_13_stages : List Stage :=
  canonicalStages

/-- Stages of `NCL_vector_5.py`: `xr.open_dataset`, hybrid-to-pressure
interpolation and scaling, contour/stream plots, `plt.show()`. -/
def NCL_vector_5_stages : List Stage :=
  canonicalStages

/-- Stages of `NCL_eof_1_1.py`: `xr.open_dataset`, longitude flip /
sorting / seasonal mean / weighting — and then the script ends: no figure
is created, rendered, saved or shown. -/
def NCL_eof_1_1_stages : List Stage :=
  [Stage.load, Stage.transform]

/-- All six scripts of the repository with their stage sequences. -/
def allScripts : List (String × List Stage) :=
  [("Plots/MapProjections/NCL_maponly_1.py", NCL_maponly_1_stages),
   ("Plots/MapProjections/NCL_native_2.py", NCL_native_2_stages),
   ("Plots/Satellites/NCL_sat_1.py", NCL_sat_1_stages),
   ("Plots/Panels/NCL_panel_13.py", NCL_panel_13_stages),
   ("Plots/Vectors/NCL_vector_5.py", NCL_vector_5_stages),
   ("Plots/Contours/NCL_eof_1_1.py", NCL_eof_1_1_stages)]

/-! ### Concrete test fields

Small pressure fields used to evaluate `findLocalMinima` against the
algorithm the spec describes. -/

/-- Latitudes of test field A. -/
def satLatA : List ℚ := [10, 20, 30]

/-- Longitudes of test field A. -/
def satLonA : List ℚ := [0, 100, 200]

/-- Test field A: constant 900 hPa except a 1000 hPa bump at `(0, 1)`. -/
def satGridA : List (List ℚ) :=
  [[900, 1000, 900], [900, 900, 900], [900, 900, 900]]

/-- Latitudes of test field B. -/
def satLatB : List ℚ := [10, 20, 30]

/-- Longitudes of test field B. -/
def satLonB : List ℚ := [0, 90, 180, 270]

/-- Test field B: a 900 hPa trough at `(1, 2)` inside a 1000 hPa middle
row, constant 900 hPa elsewhere. -/
def satGridB : List (List ℚ) :=
  [[900, 900, 900, 900], [1000, 1000, 900, 1000], [900, 900, 900, 900]]

end Geocat

namespace Geocat

/-! ## Bridge lemmas for the rational primitives -/

/-- The subtraction primitive is subtraction on `ℚ`. -/
theorem qsub_eq (a b : ℚ) : qsub a b = a - b := by
  have ha : ((a.den : ℚ)) ≠ 0 := Nat.cast_ne_zero.mpr a.den_nz
  have hb : ((b.den : ℚ)) ≠ 0 := Nat.cast_ne_zero.mpr b.den_nz
  conv_rhs => rw [← Rat.num_div_den a, ← Rat.num_div_den b]
  unfold qsub
  rw [Rat.mkRat_eq_div]
  push_cast
  field_simp
  ring

/-- The addition primitive is addition on `ℚ`. -/
theorem qadd_eq (a b : ℚ) : qadd a b = a + b := by
  have ha : ((a.den : ℚ)) ≠ 0 := Nat.cast_ne_zero.mpr a.den_nz
  have hb : ((b.den : ℚ)) ≠ 0 := Nat.cast_ne_zero.mpr b.den_nz
  conv_rhs => rw [← Rat.num_div_den a, ← Rat.num_div_den b]
  unfold qadd
  rw [Rat.mkRat_eq_div]
  push_cast
  field_simp

/-- The halving primitive is division by 2 on `ℚ`. -/
theorem qhalf_eq (a : ℚ) : qhalf a = a / 2 := by
  have ha : ((a.den : ℚ)) ≠ 0 := Nat.cast_ne_zero.mpr a.den_nz
  conv_rhs => rw [← Rat.num_div_den a]
  unfold qhalf
  rw [Rat.mkRat_eq_div]
  push_cast
  field_simp

/-- The negation primitive is negation on `ℚ`. -/
theorem qneg_eq (a : ℚ) : qneg a = -a := by
  have ha : ((a.den : ℚ)) ≠ 0 := Nat.cast_ne_zero.mpr a.den_nz
  conv_rhs => rw [← Rat.num_div_den a]
  unfold qneg
  rw [Rat.mkRat_eq_div]
  push_cast
  field_simp

/-- The absolute-value primitive is the absolute value on `ℚ`. -/
theorem qabs_eq (a : ℚ) : qabs a = |a| := by
  unfold qabs
  split
  · next h =>
    have hneg : a < 0 := by
      rw [← Rat.num_neg]
      exact_mod_cast h
    rw [qneg_eq, abs_of_neg hneg]
  · next h =>
    have hpos : 0 ≤ a := by
      rw [← Rat.num_nonneg]
      omega
    rw [abs_of_nonneg hpos]

/-- The tolerance constant of `findLocalMinima` is `0.1`. -/
theorem bound_eq : mkRat 1 10 = (1 : ℚ) / 10 := by
  rw [Rat.mkRat_eq_div]
  norm_num

/-! ## Helper lemmas -/

/-- The axis-1 gradient of a row has the same length as the row. -/
theorem grad1D_length (xs : List ℚ) : (grad1D xs).length = xs.length := by
  simp [grad1D]

/-- The number of index pairs `argwhereLe` returns is at most the number
of rows times a bound on the row lengths. -/
theorem argwhereLe_length_le (a : List (List ℚ)) (bound : ℚ) (K : Nat)
    (hK : ∀ row ∈ a, row.length ≤ K) :
    (argwhereLe a bound).length ≤ a.length * K := by
  unfold argwhereLe
  rw [List.length_flatMap]
  refine le_trans (List.sum_le_card_nsmul _ K ?_) ?_
  · intro x hx
    obtain ⟨i, hi, rfl⟩ := List.mem_map.mp hx
    have hi' : i < a.length := List.mem_range.mp hi
    simp only [Function.comp_apply]
    refine le_trans (List.length_filterMap_le _ _) ?_
    rw [List.length_range]
    have hmem : a.getD i [] ∈ a := by
      rw [List.getD_eq_getElem a [] hi']
      exact List.getElem_mem hi'
    exact hK _ hmem
  · simp [smul_eq_mul]

/-- Rows of the absolute axis-1 gradient of the wrapped field are one
longer than the corresponding rows of the unwrapped field. -/
theorem absGrad1_wrap_row_length (u : List (List ℚ)) (n : Nat)
    (h : ∀ row ∈ u, row.length = n) :
    ∀ row ∈ absGrid (grad1 (wrapU u)), row.length ≤ n + 1 := by
  intro row hrow
  obtain ⟨r, hr, rfl⟩ := List.mem_map.mp hrow
  obtain ⟨r', hr', rfl⟩ := List.mem_map.mp hr
  obtain ⟨r'', hr'', rfl⟩ := List.mem_map.mp hr'
  simp [grad1D_length, wrapRow, h _ hr'']

/-- A lookup over an association list whose keys avoid `s` misses. -/
theorem lookup_eq_none_of_not_mem_keys {β : Type} (l : List (String × β))
    (s : String) (h : s ∉ l.map Prod.fst) : l.lookup s = none := by
  induction l with
  | nil => rfl
  | cons kv rest ih =>
    obtain ⟨k, v⟩ := kv
    simp only [List.map_cons, List.mem_cons, not_or] at h
    have hb : (s == k) = false := beq_eq_false_iff_ne.mpr h.1
    simp [List.lookup, hb, ih h.2]

/-- A lookup over an association list containing the key `s` hits. -/
theorem lookup_eq_some_of_mem_keys {β : Type} (l : List (String × β))
    (s : String) (h : s ∈ l.map Prod.fst) : ∃ p, l.lookup s = some p := by
  induction l with
  | nil => simp at h
  | cons kv rest ih =>
    obtain ⟨k, v⟩ := kv
    simp only [List.map_cons, List.mem_cons] at h
    by_cases hk : s = k
    · subst hk
      exact ⟨v, by simp [List.lookup]⟩
    · obtain ⟨p, hp⟩ := ih (h.resolve_left hk)
      have hb : (s == k) = false := beq_eq_false_iff_ne.mpr hk
      exact ⟨p, by simp [List.lookup, hb, hp]⟩

/-! ## Claim theorems -/

/-- C1: the claim says `findLocalMinima` flags exactly the grid points
where BOTH gradient components are at or below `0.1` and keeps a flagged
point according to the pressure at that same grid point.  On test field A
the code diverges from that algorithm: at the wrapped index `(0, 1)` the
axis-0 gradient magnitude is `100`, so `(0, 1)` is not in `firstzeroes`,
yet the numpy broadcast membership test accepts it, and the code emits
the coordinate pair `(-10, -180)` (read from the column to the LEFT of
the flagged point); the algorithm described by the spec sentence emits no
such pair. -/
theorem findLocalMinima_deviates_from_spec_algorithm :
    findLocalMinima satLatA satLonA satGridA 980 =
      [(-10, -180), (-10, 20), (-20, 20), (-20, -180), (-20, -80),
       (-20, 20), (-30, 20), (-30, -180), (-30, -80), (-30, 20)] ∧
    at2 (absGrid (grad0 (wrapU satGridA))) 0 1 = 100 ∧
    (0, 1) ∉ argwhereLe (absGrid (grad0 (wrapU satGridA))) (mkRat 1 10) ∧
    npRowMem (0, 1) (argwhereLe (absGrid (grad0 (wrapU satGridA))) (mkRat 1 10))
      = true ∧
    ((-10 : ℚ), (-180 : ℚ)) ∈ findLocalMinima satLatA satLonA satGridA 980 ∧
    ((-10 : ℚ), (-180 : ℚ)) ∉ findLocalMinimaSpec satLatA satLonA satGridA 980
    := by decide

/-- C2: the claim says every grid point whose two gradient components are
at or below the tolerance and whose pressure is below `minPressure`
contributes its transformed coordinate to the result.  On test field B
the grid point `(1, 2)` qualifies (both gradient magnitudes are `0`, the
pressure there is `900 < 980`, in the wrapped and in the unwrapped field
alike), and its transformed coordinate is `(-20, 0)` — but the code does
not return it, because the pressure test reads the column to the left,
`U[1][1] = 1000`. -/
theorem findLocalMinima_omits_qualifying_point :
    at2 (absGrid (grad0 (wrapU satGridB))) 1 2 ≤ mkRat 1 10 ∧
    at2 (absGrid (grad1 (wrapU satGridB))) 1 2 ≤ mkRat 1 10 ∧
    at2 satGridB 1 2 < 980 ∧
    at2 (wrapU satGridB) 1 2 < 980 ∧
    (qneg (satLatB.getD 1 0), qsub (satLonB.getD 2 0) 180)
      = ((-20 : ℚ), (0 : ℚ)) ∧
    ((-20 : ℚ), (0 : ℚ)) ∉ findLocalMinima satLatB satLonB satGridB 980 ∧
    ((-20 : ℚ), (0 : ℚ)) ∈ findLocalMinimaSpec satLatB satLonB satGridB 980
    := by decide

/-- C3: `month_to_season` raises
`ValueError("contributed: month_to_season: bad season: SEASON = " + season)`
exactly for the season strings outside the 12 recognized keys, and the
key lookup succeeds (does not raise) on each of the 12 keys. -/
theorem month_to_season_error_handling (season : String) :
    (season ∉ seasonKeys →
      monthToSeasonLookup season =
        Except.error
          ("contributed: month_to_season: bad season: SEASON = " ++ season)) ∧
    (season ∈ seasonKeys →
      ∃ p, monthToSeasonLookup season = Except.ok p) := by
  constructor
  · intro hno
    have h0 : seasons_pd.lookup season = none :=
      lookup_eq_none_of_not_mem_keys _ _ (by simpa [seasonKeys] using hno)
    simp [monthToSeasonLookup, h0]
  · intro hyes
    obtain ⟨p, hp⟩ :=
      lookup_eq_some_of_mem_keys seasons_pd season
        (by simpa [seasonKeys] using hyes)
    exact ⟨p, by simp [monthToSeasonLookup, hp]⟩

/-- Witness for C3 at the unrecognized key `"XXX"` and the recognized key
`"DJF"`. -/
theorem month_to_season_error_handling_witness :
    monthToSeasonLookup "XXX" =
      Except.error
        ("contributed: month_to_season: bad season: SEASON = " ++ "XXX") ∧
    ∃ p, monthToSeasonLookup "DJF" = Except.ok p :=
  ⟨(month_to_season_error_handling "XXX").1 (by decide),
   (month_to_season_error_handling "DJF").2 (by decide)⟩

/-- C4 counterexample: the claim says no script catches, suppresses, or
recovers from an exception.  The contour-label loop of `NCL_sat_1.py`
does all three: with a labelling call that raises on the point `0`, the
loop swallows the exception and continues with the point `1`, whereas the
propagation semantics the claim asserts would abort with the error. -/
theorem clabelLoop_swallows_exception :
    clabelLoop clabelFails0 [0, 1] = [1] ∧
    clabelLoopPropagating clabelFails0 [0, 1] =
      Except.error "ValueError" := by
  constructor <;> rfl

/-- C4 amended: in the one place the repository handles failure — the
contour-label loop of `NCL_sat_1.py` — every exception is caught and the
loop continues, so the loop returns exactly the successful labellings of
all attempted points and never propagates an error (partial-failure
semantics). -/
theorem clabelLoop_partial_failure_semantics {α ε β : Type}
    (f : α → Except ε β) (pts : List α) :
    clabelLoop f pts = pts.filterMap fun x => (f x).toOption := by
  induction pts with
  | nil => rfl
  | cons x rest ih =>
    cases hfx : f x <;>
      simp [clabelLoop, hfx, List.filterMap_cons, Except.toOption, ih]

/-- C5 counterexample: the claim says each script reads a dataset from a
file and each script renders and shows or saves a figure; but
`NCL_maponly_1.py` has no load stage and `NCL_eof_1_1.py` has no
save/show stage. -/
theorem scripts_missing_stages :
    Stage.load ∉ NCL_maponly_1_stages ∧
    Stage.saveShow ∉ NCL_eof_1_1_stages ∧
    ("Plots/MapProjections/NCL_maponly_1.py", NCL_maponly_1_stages)
      ∈ allScripts ∧
    ("Plots/Contours/NCL_eof_1_1.py", NCL_eof_1_1_stages) ∈ allScripts
    := by decide

/-- C5 amended: every script is a linear sequence of stages drawn from
load → subset/transform → plot → save/show in that order; all scripts
except `NCL_maponly_1.py` read a dataset from a file, and all scripts
except `NCL_eof_1_1.py` render and show a figure. -/
theorem scripts_stage_structure :
    allScripts.length = 6 ∧
    NCL_maponly_1_stages.Sublist canonicalStages ∧
    NCL_native_2_stages.Sublist canonicalStages ∧
    NCL_sat_1_stages.Sublist canonicalStages ∧
    NCL_panel_13_stages.Sublist canonicalStages ∧
    NCL_vector_5_stages.Sublist canonicalStages ∧
    NCL_eof_1_1_stages.Sublist canonicalStages ∧
    Stage.load ∈ NCL_native_2_stages ∧
    Stage.load ∈ NCL_sat_1_stages ∧
    Stage.load ∈ NCL_panel_13_stages ∧
    Stage.load ∈ NCL_vector_5_stages ∧
    Stage.load ∈ NCL_eof_1_1_stages ∧
    Stage.saveShow ∈ NCL_maponly_1_stages ∧
    Stage.saveShow ∈ NCL_native_2_stages ∧
    Stage.saveShow ∈ NCL_sat_1_stages ∧
    Stage.saveShow ∈ NCL_panel_13_stages ∧
    Stage.saveShow ∈ NCL_vector_5_stages := by decide

/-- C6: `findLocalMinima` is a bounded scan: on a rectangular field of
`u.length` rows and `n` columns the returned list has at most
`u.length * (n + 1)` entries (every returned point comes from one flagged
index of the wrapped `u.length × (n + 1)` gradient grid). -/
theorem findLocalMinima_length_le (lat lon : List ℚ) (u : List (List ℚ))
    (minPressure : ℚ) (n : Nat) (h : ∀ row ∈ u, row.length = n) :
    (findLocalMinima lat lon u minPressure).length ≤ u.length * (n + 1) := by
  unfold findLocalMinima findLocalMinimaCore
  refine le_trans (List.length_filterMap_le _ _) ?_
  refine le_trans (List.length_filter_le _ _) ?_
  have hlen : (absGrid (grad1 (wrapU u))).length = u.length := by
    simp [absGrid, grad1, wrapU]
  calc (argwhereLe (absGrid (grad1 (wrapU u))) (mkRat 1 10)).length
      ≤ (absGrid (grad1 (wrapU u))).length * (n + 1) :=
        argwhereLe_length_le _ _ _ (absGrad1_wrap_row_length u n h)
    _ = u.length * (n + 1) := by rw [hlen]

/-- Witness for C6 on a concrete 2 × 2 field. -/
theorem findLocalMinima_length_le_witness :
    (findLocalMinima [10, 20] [0, 180] [[900, 900], [900, 900]] 980).length
      ≤ 2 * (2 + 1) :=
  findLocalMinima_length_le [10, 20] [0, 180] [[900, 900], [900, 900]] 980 2
    (by decide)

/-- C7: `findLocalMinima` is purely functional over the globals of the
script: run as a state transformer it returns the state unchanged, and on
two states that agree on the pressure arrays and their coordinates it
returns the same list for the same `minPressure`. -/
theorem findLocalMinimaSt_pure (s t : SatState) (minPressure : ℚ)
    (hlat : s.lat = t.lat) (hlon : s.lon = t.lon)
    (hU : s.U = t.U) (hw : s.wrap_U = t.wrap_U) :
    (findLocalMinimaSt s minPressure).1 = s ∧
    (findLocalMinimaSt t minPressure).1 = t ∧
    (findLocalMinimaSt s minPressure).2 = (findLocalMinimaSt t minPressure).2
    := by
  refine ⟨rfl, rfl, ?_⟩
  simp [findLocalMinimaSt, hlat, hlon, hU, hw]

/-- Witness for C7 on two (equal) concrete states. -/
theorem findLocalMinimaSt_pure_witness :
    (findLocalMinimaSt ⟨[10], [20], [[900]], [[900, 900]]⟩ 980).1 =
      (⟨[10], [20], [[900]], [[900, 900]]⟩ : SatState) ∧
    (findLocalMinimaSt ⟨[10], [20], [[900]], [[900, 900]]⟩ 980).1 =
      (⟨[10], [20], [[900]], [[900, 900]]⟩ : SatState) ∧
    (findLocalMinimaSt ⟨[10], [20], [[900]], [[900, 900]]⟩ 980).2 =
      (findLocalMinimaSt ⟨[10], [20], [[900]], [[900, 900]]⟩ 980).2 :=
  findLocalMinimaSt_pure _ _ 980 rfl rfl rfl rfl

end Geocat
